import Mathlib

/-!
Shallow embedding of the search-result retrieval and normalization pipeline of
the My-Searchbot repository, together with its short-TTL result cache and the
chat-history handling of the chatbot class.

Embedded source functions:
  * `src/helper.py`, `invoke_duckduckgo_news_search` (lines 155-220)
  * `src/helper.py`, `format_news_results_html` (lines 223-245)
  * `src/helper.py`, `ChatBot._build_messages` / `ChatBot.generate_response`
    (lines 72-115)
  * `src/app1.py`, `get_search_results_realtime` (lines 25-42)

Modelling conventions:
  * Python strings are Lean `String`s; `str.strip()` is `pyStrip` (ASCII
    whitespace, which is what the repository's inputs use).
  * The HTML fetch (`requests.get`) is external input: it is modelled by the
    `FetchResult` parameter — either a response carrying a status code and the
    list of `div.result__body` blocks BeautifulSoup would extract from the
    body, or `exn` for a raised exception (connection error, timeout, ...),
    which the source catches in its outer `try/except`.
  * A parsed block is modelled at the level the source reads it: an optional
    title anchor (`a.result__a`: stripped text plus optional `href`
    attribute) and the optional stripped text of the snippet anchor
    (`a.result__snippet`).
  * The outcome dictionary `{"status": ..., ...}` is the tagged `SearchOutcome`.
  * Timestamps (`time.time()`) are integers; the cache dictionary is a map
    `String → Option (Int × SearchOutcome)`.
  * Logging calls have no effect on any returned value and are not modelled.
-/

namespace SearchBot

/-- Python `str.strip()` on ASCII whitespace: drop leading and trailing
whitespace characters. -/
def pyStrip (s : String) : String :=
  ⟨((s.data.dropWhile Char.isWhitespace).reverse.dropWhile Char.isWhitespace).reverse⟩

/-- One message of the OpenAI conversation: a `{"role": ..., "content": ...}`
dictionary. -/
structure Message where
  role : String
  content : String
deriving DecidableEq, Repr

/-- The title anchor `a.result__a` of a result block: its stripped text
(`get_text(strip=True)`) and its `href` attribute when present. -/
structure TitleTag where
  text : String
  href : Option String
deriving DecidableEq, Repr

/-- One `div.result__body` block of the parsed HTML, at the granularity the
source reads it: the optional title anchor, and the stripped text of the
snippet anchor `a.result__snippet` when that anchor is present. -/
structure ResultBlock where
  titleTag : Option TitleTag
  snippetText : Option String
deriving DecidableEq, Repr

/-- One entry of the `results` list built by `invoke_duckduckgo_news_search`:
`{"num": idx + 1, "title": title, "link": link, "summary": summary}`. -/
structure SearchRecord where
  num : Nat
  title : String
  link : String
  summary : String
deriving DecidableEq, Repr

/-- The dictionary returned by `invoke_duckduckgo_news_search`: either
`{"status": "success", "results": [...]}` or
`{"status": "error", "message": "..."}`. -/
inductive SearchOutcome where
  | success (results : List SearchRecord)
  | error (message : String)
deriving DecidableEq, Repr

/-- The outcome of the outbound `requests.get`: a response with its HTTP
status code and the `div.result__body` blocks parsed from its body, or a
raised exception (connection error, timeout, ...). -/
inductive FetchResult where
  | response (statusCode : Nat) (blocks : List ResultBlock)
  | exn
deriving DecidableEq, Repr

/-! ### Percent-decoding and the `uddg=` redirect regex

`link = urllib.parse.unquote(match.group(1)) if match else raw_link` where
`match = re.search(r"uddg=(https?%3A%2F%2F[^&]+)", raw_link)`. -/

/-- Hexadecimal digit test, as in percent-escapes `%3A`. -/
def isHexDigit (c : Char) : Bool :=
  c.isDigit || ('a' ≤ c && c ≤ 'f') || ('A' ≤ c && c ≤ 'F')

/-- Value of a hexadecimal digit. -/
def hexVal (c : Char) : Nat :=
  if c.isDigit then c.toNat - '0'.toNat
  else if 'a' ≤ c && c ≤ 'f' then c.toNat - 'a'.toNat + 10
  else c.toNat - 'A'.toNat + 10

/-- `urllib.parse.unquote` on a character list: each valid `%HH` escape is
replaced by the character with code `HH`; invalid escapes are kept verbatim.
(Byte-level model; it agrees with `unquote` on ASCII escapes, which is all the
`uddg=` destinations in scope contain.) -/
def unquoteChars : List Char → List Char
  | '%' :: a :: b :: rest =>
    if isHexDigit a && isHexDigit b then
      Char.ofNat (16 * hexVal a + hexVal b) :: unquoteChars rest
    else '%' :: unquoteChars (a :: b :: rest)
  | c :: rest => c :: unquoteChars rest
  | [] => []

/-- Match a literal character-list pattern at the head of the input, returning
the remainder on success. -/
def dropLit : List Char → List Char → Option (List Char)
  | [], cs => some cs
  | _ :: _, [] => none
  | p :: ps, c :: cs => if c = p then dropLit ps cs else none

/-- Match `%3A%2F%2F[^&]+` after a given matched head, returning the full
captured group (head ++ `%3A%2F%2F` ++ body). -/
def matchSchemeTail (head rest : List Char) : Option (List Char) :=
  match dropLit "%3A%2F%2F".data rest with
  | none => none
  | some r2 =>
    let body := r2.takeWhile (· ≠ '&')
    if body = [] then none else some (head ++ "%3A%2F%2F".data ++ body)

/-- Match the captured group `https?%3A%2F%2F[^&]+` at the head of the input.
(The `s?` alternative needs no backtracking: if an `s` follows `http` then the
s-less branch would have to match `%` against that `s` and fails anyway.) -/
def matchGroupAt (cs : List Char) : Option (List Char) :=
  match dropLit "http".data cs with
  | none => none
  | some r =>
    match r with
    | 's' :: r2 => matchSchemeTail "https".data r2
    | _ => matchSchemeTail "http".data r

/-- `re.search(r"uddg=(https?%3A%2F%2F[^&]+)", ...)`: scan left to right for
the first position where the whole pattern matches and return the captured
group. -/
def uddgSearch : List Char → Option (List Char)
  | [] => none
  | c :: cs =>
    match dropLit "uddg=".data (c :: cs) with
    | some rest =>
      match matchGroupAt rest with
      | some g => some g
      | none => uddgSearch cs
    | none => uddgSearch cs

/-- Lines 199-200 of `helper.py`: decode the DuckDuckGo redirect wrapper when
the `uddg=` pattern matches, keep the raw link otherwise. -/
def decodeDuckLink (rawLink : String) : String :=
  match uddgSearch rawLink.data with
  | some g => ⟨unquoteChars g⟩
  | none => rawLink

/-! ### The parse loop of `invoke_duckduckgo_news_search` -/

/-- The body of one iteration of the `for idx, result in enumerate(...)` loop
(lines 191-210 of `helper.py`): `continue` when the block has no
`a.result__a` anchor, otherwise build the record appended to `results`. -/
def extractRecord (idx : Nat) (b : ResultBlock) : Option SearchRecord :=
  match b.titleTag with
  | none => none
  | some t =>
    some { num := idx + 1
           title := t.text
           link := decodeDuckLink (t.href.getD "")
           summary := match b.snippetText with
                      | some s => s
                      | none => "No summary available." }

/-- The `for idx, result in enumerate(...)` loop itself, with `idx` the
running enumerate index. -/
def parseLoop : Nat → List ResultBlock → List SearchRecord
  | _, [] => []
  | idx, b :: bs =>
    match extractRecord idx b with
    | some r => r :: parseLoop (idx + 1) bs
    | none => parseLoop (idx + 1) bs

/-- Lines 189-210 of `helper.py`: iterate over `search_results[:num]`
(truncation happens BEFORE the per-block title filter). -/
def parseResults (blocks : List ResultBlock) (num : Nat) : List SearchRecord :=
  parseLoop 0 (blocks.take num)

/-- `invoke_duckduckgo_news_search` (lines 155-220 of `helper.py`), with the
outbound GET supplied as the `fetch` argument.  The source wraps the whole
body in `try/except`; the only statements that can raise are the
`requests.get` call and response access, so `FetchResult.exn` lands in the
handler of line 218, which returns the generic no-results error message. -/
def invoke_duckduckgo_news_search (query : String) (num : Nat)
    (fetch : FetchResult) : SearchOutcome :=
  let q := pyStrip query
  if q = "" then .error "Empty query"
  else
    match fetch with
    | .exn => .error "No search results available."
    | .response statusCode blocks =>
      if statusCode ≠ 200 then .error "Failed to fetch news results"
      else
        let results := parseResults blocks num
        if results ≠ [] then .success results
        else .error "No search results available."

/-- `format_news_results_html` (lines 223-245 of `helper.py`) on a search
outcome: empty string unless the payload has `status == "success"` and a
non-empty `results` list; otherwise `"\n".join` of the per-item paragraphs
wrapped in a `div`. -/
def format_news_results_html (payload : SearchOutcome) : String :=
  match payload with
  | .error _ => ""
  | .success items =>
    if items = [] then ""
    else
      let lines := items.map fun item =>
        "<p><b>" ++ toString item.num ++ ". " ++
        "<a href='" ++ item.link ++ "' target='_blank'>" ++ item.title ++
        "</a></b><br/>" ++ item.summary ++ "</p>"
      String.intercalate "\n" ("<div>" :: (lines ++ ["</div>"]))

/-! ### The TTL cache of `src/app1.py` -/

/-- `SEARCH_TTL_SEC = 60` (line 23 of `app1.py`). -/
def SEARCH_TTL_SEC : Int := 60

/-- The `_SEARCH_CACHE` dictionary `{ query: (timestamp, results) }` of line
22 of `app1.py`. -/
def Cache := String → Option (Int × SearchOutcome)

/-- The value returned by `get_search_results_realtime`: the literal empty
list for an empty query, or the outcome dictionary in every other case. -/
inductive RealtimeResult where
  | emptyList
  | outcome (o : SearchOutcome)
deriving DecidableEq, Repr

/-- `get_search_results_realtime` (lines 25-42 of `app1.py`) with the ambient
state made explicit: the cache dictionary, the TTL constant, the current
`time.time()` and the underlying search call (`invoke_duckduckgo_news_search`
applied to the trimmed query with its default arguments) are parameters, and
the function returns the value, the updated cache and the number of times the
underlying search was invoked during the call. -/
def get_search_results_realtime (cache : Cache) (ttl : Int) (now : Int)
    (fetcher : String → SearchOutcome) (query : String) :
    RealtimeResult × Cache × Nat :=
  let q := pyStrip query
  if q = "" then (.emptyList, cache, 0)
  else
    match cache q with
    | some (ts, results) =>
      if now - ts < ttl then (.outcome results, cache, 0)
      else
        let results := fetcher q
        (.outcome results,
         fun k => if k = q then some (now, results) else cache k, 1)
    | none =>
      let results := fetcher q
      (.outcome results,
       fun k => if k = q then some (now, results) else cache k, 1)

/-! ### `ChatBot._build_messages` and `ChatBot.generate_response` -/

/-- `self.history` as initialized by `ChatBot.__init__` (lines 67-69 of
`helper.py`). -/
def initialHistory : List Message :=
  [{ role := "system"
     content := "You are a helpful assistant. Answer clearly and concisely." }]

/-- `ChatBot._build_messages` (lines 72-87 of `helper.py`): copy the history,
append the context as an extra system message when its stripped text is
non-empty, then append the user message. -/
def build_messages (history : List Message) (user_input : String)
    (context : String) : List Message :=
  let ctx := pyStrip context
  let messages :=
    if ctx ≠ "" then
      history ++
        [{ role := "system"
           content := "Use the following web context if it is relevant:\n\n" ++ ctx }]
    else history
  messages ++ [{ role := "user", content := user_input }]

/-- The outcome of `client.chat.completions.create` followed by
`resp.choices[0].message.content`: `Except.error` when any of it raises (the
source catches every exception on line 113), otherwise the optional content
string (`None` becomes `none`). -/
def Completion := List Message → Except Unit (Option String)

/-- `ChatBot.generate_response` (lines 89-115 of `helper.py`) with the history
passed explicitly: returns the reply string and the new history.  On success
the (possibly empty) stripped text is appended to the history as the
assistant message right after the user message, and an empty text is replaced
by the fallback sentence in the returned value only; on an exception the
fixed error sentence is returned and the history is left as it was. -/
def generate_response (history : List Message) (user_input : String)
    (context : String) (completion : Completion) : String × List Message :=
  match completion (build_messages history user_input context) with
  | .error _ =>
    ("I encountered an error while generating a response. Please try again.",
     history)
  | .ok content =>
    let text := pyStrip (content.getD "")
    let history2 := history ++
      [{ role := "user", content := user_input },
       { role := "assistant", content := text }]
    (if text ≠ "" then text
     else "I can helpâ€”please ask a more specific question.", history2)

/-! ### Rank predicates used by the claims -/

/-- The ranks of a record list are exactly `1, 2, ..., n`: the spec's
"ordered by ascending rank starting at 1 with no gaps". -/
def ranksConsecutive (rs : List SearchRecord) : Prop :=
  rs.map SearchRecord.num = List.range' 1 rs.length

instance (rs : List SearchRecord) : Decidable (ranksConsecutive rs) := by
  unfold ranksConsecutive; infer_instance

/-! ### Helper lemmas about the parse loop -/

/-- Every record emitted by the loop starting at index `idx` carries a `num`
strictly above `idx` and at most `idx + length`. -/
theorem parseLoop_num_bounds (bs : List ResultBlock) (idx : Nat) :
    ∀ r ∈ parseLoop idx bs, idx + 1 ≤ r.num ∧ r.num ≤ idx + bs.length := by
  induction bs generalizing idx with
  | nil => intro r hr; simp [parseLoop] at hr
  | cons b bs ih =>
    intro r hr
    simp only [parseLoop] at hr
    cases hb : b.titleTag with
    | none =>
      rw [show extractRecord idx b = none by simp [extractRecord, hb]] at hr
      have := ih (idx + 1) r hr
      simp only [List.length_cons]
      omega
    | some t =>
      rw [show extractRecord idx b = some
            { num := idx + 1
              title := t.text
              link := decodeDuckLink (t.href.getD "")
              summary := match b.snippetText with
                         | some s => s
                         | none => "No summary available." }
          by simp [extractRecord, hb]] at hr
      rcases List.mem_cons.mp hr with h | h
      · subst h; simp only [List.length_cons]; omega
      · have := ih (idx + 1) r h
        simp only [List.length_cons]
        omega

/-- The records' `num` fields come out strictly increasing. -/
theorem parseLoop_pairwise (bs : List ResultBlock) (idx : Nat) :
    ((parseLoop idx bs).map SearchRecord.num).Pairwise (· < ·) := by
  induction bs generalizing idx with
  | nil => simp [parseLoop]
  | cons b bs ih =>
    simp only [parseLoop]
    cases hE : extractRecord idx b with
    | none => exact ih (idx + 1)
    | some r =>
      simp only [List.map_cons, List.pairwise_cons]
      refine ⟨?_, ih (idx + 1)⟩
      intro m hm
      rcases List.mem_map.mp hm with ⟨r2, hr2, hm2⟩
      have hb2 := (parseLoop_num_bounds bs (idx + 1) r2 hr2).1
      have hr1 : r.num = idx + 1 := by
        cases hb : b.titleTag with
        | none => simp [extractRecord, hb] at hE
        | some t => simp [extractRecord, hb] at hE; simp [← hE]
      omega

/-- The loop produces exactly one record per block owning a title anchor. -/
theorem parseLoop_length (bs : List ResultBlock) (idx : Nat) :
    (parseLoop idx bs).length = bs.countP (fun b => b.titleTag.isSome) := by
  induction bs generalizing idx with
  | nil => simp [parseLoop]
  | cons b bs ih =>
    simp only [parseLoop, List.countP_cons]
    cases hb : b.titleTag with
    | none =>
      rw [show extractRecord idx b = none by simp [extractRecord, hb]]
      simp [ih (idx + 1), hb]
    | some t =>
      rw [show extractRecord idx b = some
            { num := idx + 1
              title := t.text
              link := decodeDuckLink (t.href.getD "")
              summary := match b.snippetText with
                         | some s => s
                         | none => "No summary available." }
          by simp [extractRecord, hb]]
      simp [ih (idx + 1), hb]

/-- Every emitted record is the extraction of the block sitting at the raw
enumerate index `r.num - 1` steps into the iterated list. -/
theorem parseLoop_index (bs : List ResultBlock) (idx : Nat) (r : SearchRecord)
    (hr : r ∈ parseLoop idx bs) :
    ∃ j b, bs.get? j = some b ∧ r.num = idx + j + 1 ∧
      extractRecord (idx + j) b = some r := by
  induction bs generalizing idx with
  | nil => simp [parseLoop] at hr
  | cons b bs ih =>
    simp only [parseLoop] at hr
    cases hE : extractRecord idx b with
    | none =>
      rw [hE] at hr
      rcases ih (idx + 1) hr with ⟨j, b2, hget, hnum, hext⟩
      refine ⟨j + 1, b2, by simpa using hget, by omega, ?_⟩
      rw [show idx + (j + 1) = idx + 1 + j by omega]
      exact hext
    | some r0 =>
      rw [hE] at hr
      rcases List.mem_cons.mp hr with h | h
      · subst h
        have hr1 : r.num = idx + 1 := by
          cases hb : b.titleTag with
          | none => simp [extractRecord, hb] at hE
          | some t => simp [extractRecord, hb] at hE; simp [← hE]
        exact ⟨0, b, rfl, by omega, by simpa using hE⟩
      · rcases ih (idx + 1) h with ⟨j, b2, hget, hnum, hext⟩
        refine ⟨j + 1, b2, by simpa using hget, by omega, ?_⟩
        rw [show idx + (j + 1) = idx + 1 + j by omega]
        exact hext

/-- `search_results[:num]` caps the record count at `num`. -/
theorem parseResults_length_le (blocks : List ResultBlock) (num : Nat) :
    (parseResults blocks num).length ≤ num := by
  calc (parseResults blocks num).length
      = (blocks.take num).countP (fun b => b.titleTag.isSome) :=
        parseLoop_length _ 0
    _ ≤ (blocks.take num).length := List.countP_le_length _
    _ ≤ num := by simp [List.length_take]

/-- Inversion of a successful search: the query survived the emptiness check,
the GET returned status 200, and the records are exactly the parse of the
first `num` blocks (and are non-empty, by the final branch of the source). -/
theorem invoke_success_inv (query : String) (num : Nat) (fetch : FetchResult)
    (recs : List SearchRecord)
    (h : invoke_duckduckgo_news_search query num fetch = .success recs) :
    ∃ blocks, fetch = .response 200 blocks ∧
      recs = parseResults blocks num ∧ recs ≠ [] := by
  by_cases hq : pyStrip query = ""
  · simp [invoke_duckduckgo_news_search, hq] at h
  cases fetch with
  | exn => simp [invoke_duckduckgo_news_search, hq] at h
  | response sc blocks =>
    by_cases hs : sc = 200
    · subst hs
      by_cases hres : parseResults blocks num = []
      · simp [invoke_duckduckgo_news_search, hq, hres] at h
      · simp [invoke_duckduckgo_news_search, hq, hres] at h
        exact ⟨blocks, rfl, h.symm, h ▸ hres⟩
    · simp [invoke_duckduckgo_news_search, hq, hs] at h

/-- The accumulator of `String.intercalate.go` only ever grows. -/
theorem intercalate_go_length_le (s : String) (l : List String) (acc : String) :
    acc.length ≤ (String.intercalate.go acc s l).length := by
  induction l generalizing acc with
  | nil => exact Nat.le_refl _
  | cons a as ih =>
    have h2 : acc.length ≤ (acc ++ s ++ a).length := by
      simp only [String.length_append]; omega
    exact le_trans h2 (ih (acc ++ s ++ a))

/-- A joined list starting with `a` is at least as long as `a`. -/
theorem intercalate_cons_length (s a : String) (l : List String) :
    a.length ≤ (String.intercalate s (a :: l)).length :=
  intercalate_go_length_le s l a

/-- A successful payload with at least one record renders to a non-empty
string (it starts with the `<div>` opener). -/
theorem format_success_ne_empty (items : List SearchRecord)
    (hne : items ≠ []) :
    format_news_results_html (.success items) ≠ "" := by
  intro h
  have h5 := intercalate_cons_length "\n" "<div>"
      ((items.map fun item =>
        "<p><b>" ++ toString item.num ++ ". " ++
        "<a href='" ++ item.link ++ "' target='_blank'>" ++ item.title ++
        "</a></b><br/>" ++ item.summary ++ "</p>") ++ ["</div>"])
  rw [show format_news_results_html (.success items) =
        String.intercalate "\n" ("<div>" :: ((items.map fun item =>
          "<p><b>" ++ toString item.num ++ ". " ++
          "<a href='" ++ item.link ++ "' target='_blank'>" ++ item.title ++
          "</a></b><br/>" ++ item.summary ++ "</p>") ++ ["</div>"]))
      by simp [format_news_results_html, hne]] at h
  rw [h] at h5
  exact absurd h5 (by decide)

/-! ### The claims -/

/-- Claim C1, counterexample.  The claim says a returned record's rank is its
1-based position in the output sequence after skipping unusable blocks, so
that ranks are `1, 2, ...` with no gaps.  In the source, `"num": idx + 1`
uses the raw `enumerate` index: with a title-less first block followed by one
usable block, the single returned record carries rank 2, so the ranks neither
start at 1 nor are gap-free. -/
theorem C1_counterexample :
    invoke_duckduckgo_news_search "q" 5
      (.response 200 [⟨none, none⟩, ⟨some ⟨"T", some "L"⟩, none⟩]) =
      .success [⟨2, "T", "L", "No summary available."⟩] ∧
    ¬ ranksConsecutive [⟨2, "T", "L", "No summary available."⟩] := by
  decide

/-- Claim C1, amended.  For every successful search, each returned record's
rank is one more than the raw index of its block within the first
`resultLimit` parsed blocks (skipped blocks keep consuming indices), so the
records of a `Success` outcome are ordered by strictly ascending rank,
possibly with gaps and possibly starting above 1. -/
theorem C1_rank_is_raw_block_position (query : String) (num : Nat)
    (fetch : FetchResult) (recs : List SearchRecord)
    (h : invoke_duckduckgo_news_search query num fetch = .success recs) :
    ((recs.map SearchRecord.num).Pairwise (· < ·)) ∧
    ∃ blocks, fetch = .response 200 blocks ∧
      ∀ r ∈ recs, ∃ b, (blocks.take num).get? (r.num - 1) = some b ∧
        extractRecord (r.num - 1) b = some r := by
  rcases invoke_success_inv query num fetch recs h with ⟨blocks, hfetch, hrecs, -⟩
  subst hrecs
  refine ⟨parseLoop_pairwise _ 0, blocks, hfetch, ?_⟩
  intro r hr
  rcases parseLoop_index (blocks.take num) 0 r hr with ⟨j, b, hget, hnum, hext⟩
  have hj : r.num - 1 = j := by omega
  rw [hj]
  exact ⟨b, hget, by simpa using hext⟩

/-- Claim C1, witness for the amended theorem at the counterexample input. -/
theorem C1_witness :
    ((([⟨2, "T", "L", "No summary available."⟩] :
        List SearchRecord).map SearchRecord.num).Pairwise (· < ·)) ∧
    ∃ blocks,
      (FetchResult.response 200 [⟨none, none⟩, ⟨some ⟨"T", some "L"⟩, none⟩]) =
        .response 200 blocks ∧
      ∀ r ∈ ([⟨2, "T", "L", "No summary available."⟩] : List SearchRecord),
        ∃ b, (blocks.take 5).get? (r.num - 1) = some b ∧
          extractRecord (r.num - 1) b = some r :=
  C1_rank_is_raw_block_position "q" 5
    (.response 200 [⟨none, none⟩, ⟨some ⟨"T", some "L"⟩, none⟩])
    [⟨2, "T", "L", "No summary available."⟩] (by decide)

/-- Claim C2, counterexample.  The claim's own fixture — three well-formed
blocks and one block missing a title, `resultLimit = 10` — returns three
records, but when the title-less block comes first their ranks are 2, 3, 4
rather than the claimed 1, 2, 3, because the source numbers records by raw
block index. -/
theorem C2_counterexample :
    invoke_duckduckgo_news_search "q" 10
      (.response 200
        [⟨none, none⟩,
         ⟨some ⟨"A", some "la"⟩, some "sa"⟩,
         ⟨some ⟨"B", some "lb"⟩, some "sb"⟩,
         ⟨some ⟨"C", some "lc"⟩, some "sc"⟩]) =
      .success [⟨2, "A", "la", "sa"⟩, ⟨3, "B", "lb", "sb"⟩,
                ⟨4, "C", "lc", "sc"⟩] ∧
    ¬ ranksConsecutive [⟨2, "A", "la", "sa"⟩, ⟨3, "B", "lb", "sb"⟩,
                        ⟨4, "C", "lc", "sc"⟩] := by
  decide

/-- Claim C2, amended.  A parsed result block lacking a title anchor is
skipped without producing a record, but it still occupies one of the first
`resultLimit` slots (the source truncates `search_results[:num]` before the
per-block filter), so skipped blocks do count toward `resultLimit`: a
successful search returns exactly one record per title-bearing block among
the first `resultLimit` blocks.  For the fixture of three well-formed blocks
plus one title-less block with `resultLimit = 10` this yields exactly 3
records, whose ranks are the raw 1-based block positions. -/
theorem C2_skip_counts_toward_limit (query : String) (num : Nat)
    (blocks : List ResultBlock) (recs : List SearchRecord)
    (h : invoke_duckduckgo_news_search query num (.response 200 blocks) =
      .success recs) :
    recs.length = (blocks.take num).countP (fun b => b.titleTag.isSome) := by
  rcases invoke_success_inv query num _ recs h with ⟨blocks2, hfetch, hrecs, -⟩
  injection hfetch with hsc hb
  subst hb
  rw [hrecs]
  exact parseLoop_length _ 0

/-- Claim C2, witness for the amended theorem on the claim's fixture: the 3
returned records match the 3 title-bearing blocks among the first 10. -/
theorem C2_witness :
    ([⟨2, "A", "la", "sa"⟩, ⟨3, "B", "lb", "sb"⟩,
      ⟨4, "C", "lc", "sc"⟩] : List SearchRecord).length =
      (([⟨none, none⟩,
         ⟨some ⟨"A", some "la"⟩, some "sa"⟩,
         ⟨some ⟨"B", some "lb"⟩, some "sb"⟩,
         ⟨some ⟨"C", some "lc"⟩, some "sc"⟩] :
           List ResultBlock).take 10).countP (fun b => b.titleTag.isSome) :=
  C2_skip_counts_toward_limit "q" 10
    [⟨none, none⟩,
     ⟨some ⟨"A", some "la"⟩, some "sa"⟩,
     ⟨some ⟨"B", some "lb"⟩, some "sb"⟩,
     ⟨some ⟨"C", some "lc"⟩, some "sc"⟩]
    [⟨2, "A", "la", "sa"⟩, ⟨3, "B", "lb", "sb"⟩, ⟨4, "C", "lc", "sc"⟩]
    (by decide)

/-- Claim C3, counterexample.  The claim says every transport-level failure —
including a connection error or timeout — yields the fetch-failed outcome.
In the source, a raised connection error or timeout is caught by the outer
`except` of line 218, which returns the message "No search results
available." — the same message as the no-results failure, not the
fetch-failed message "Failed to fetch news results". -/
theorem C3_counterexample :
    invoke_duckduckgo_news_search "q" 5 .exn =
      .error "No search results available." ∧
    invoke_duckduckgo_news_search "q" 5 .exn ≠
      .error "Failed to fetch news results" := by
  decide

/-- Claim C3, amended.  A non-200 HTTP status yields the fetch-failed outcome
(`"Failed to fetch news results"`), but a connection error or timeout (an
exception raised by the GET) is caught and yields the generic
`"No search results available."` failure, indistinguishable from no-results;
in neither case is the request retried (the embedding consumes its single
`fetch` argument exactly once). -/
theorem C3_transport_failures (query : String) (num : Nat) (statusCode : Nat)
    (blocks : List ResultBlock)
    (hq : pyStrip query ≠ "") (hs : statusCode ≠ 200) :
    invoke_duckduckgo_news_search query num (.response statusCode blocks) =
      .error "Failed to fetch news results" ∧
    invoke_duckduckgo_news_search query num .exn =
      .error "No search results available." := by
  constructor
  · simp [invoke_duckduckgo_news_search, hq, hs]
  · simp [invoke_duckduckgo_news_search, hq]

/-- Claim C3, witness: a 404 status and a raised exception at a concrete
query. -/
theorem C3_witness :
    invoke_duckduckgo_news_search "q" 5 (.response 404 []) =
      .error "Failed to fetch news results" ∧
    invoke_duckduckgo_news_search "q" 5 .exn =
      .error "No search results available." :=
  C3_transport_failures "q" 5 404 [] (by decide) (by decide)

/-- Claim C4, counterexample.  The claim quantifies over every query, but for
a query whose text trims to the empty string the code returns the literal
empty list without consulting the cache or invoking the fetcher: with an
empty cache (no entry for the trimmed key ""), the fetcher is invoked 0
times — not "exactly once" — and the fetcher's outcome is not returned. -/
theorem C4_counterexample :
    (get_search_results_realtime (fun _ => none) 60 0
      (fun _ => .error "E") "  ").2.2 = 0 ∧
    ((fun _ => none : Cache) (pyStrip "  ")) = none ∧
    (get_search_results_realtime (fun _ => none) 60 0
      (fun _ => .error "E") "  ").1 ≠ .outcome (.error "E") := by
  refine ⟨rfl, rfl, ?_⟩
  decide

/-- Claim C4, amended.  For every query whose text trims to a NON-empty
string, and every fetcher: if a cache entry for the trimmed query text exists
and `now - insertedAt < ttlSeconds`, `get_search_results_realtime` returns
the stored outcome (a stored failure included, verbatim) without invoking the
fetcher; otherwise it invokes the fetcher exactly once, stores the returned
outcome with the current timestamp (overwriting any prior entry for that
key), and returns it. -/
theorem C4_getOrFetch_contract (cache : Cache) (ttl now : Int)
    (fetcher : String → SearchOutcome) (query : String)
    (hq : pyStrip query ≠ "") :
    (∀ ts o, cache (pyStrip query) = some (ts, o) → now - ts < ttl →
      get_search_results_realtime cache ttl now fetcher query =
        (.outcome o, cache, 0)) ∧
    ((cache (pyStrip query) = none ∨
        ∃ ts o, cache (pyStrip query) = some (ts, o) ∧ ttl ≤ now - ts) →
      get_search_results_realtime cache ttl now fetcher query =
        (.outcome (fetcher (pyStrip query)),
         fun k => if k = pyStrip query then
             some (now, fetcher (pyStrip query))
           else cache k,
         1)) := by
  constructor
  · intro ts o hco hfresh
    simp [get_search_results_realtime, hq, hco, hfresh]
  · intro hmiss
    cases hco : cache (pyStrip query) with
    | none => simp [get_search_results_realtime, hq, hco]
    | some tso =>
      rcases hmiss with hnone | ⟨ts, o, hsome, hstale⟩
      · rw [hco] at hnone; exact absurd hnone (by simp)
      · rw [hco] at hsome
        injection hsome with hts
        subst hts
        simp [get_search_results_realtime, hq, hco, not_lt.mpr hstale]

/-- Claim C4, witness for the amended theorem: a cache miss at a concrete
query invokes the fetcher once, returns its outcome and stores it. -/
theorem C4_witness :
    (get_search_results_realtime (fun _ => none) 60 0
      (fun _ => .error "E") "hi").1 = .outcome (.error "E") ∧
    (get_search_results_realtime (fun _ => none) 60 0
      (fun _ => .error "E") "hi").2.2 = 1 ∧
    (get_search_results_realtime (fun _ => none) 60 0
      (fun _ => .error "E") "hi").2.1 "hi" = some (0, .error "E") := by
  have h := (C4_getOrFetch_contract (fun _ => none) 60 0
      (fun _ => .error "E") "hi" (by decide)).2 (Or.inl rfl)
  rw [h]
  refine ⟨rfl, rfl, ?_⟩
  decide

/-- Claim C5 (confirmed).  For every query whose text trims to the empty
string (whitespace-only input included), the search returns the empty-query
failure; the result does not depend on the `fetch` argument, so no network
call is observed. -/
theorem C5_empty_query (query : String) (num : Nat) (fetch : FetchResult)
    (hq : pyStrip query = "") :
    invoke_duckduckgo_news_search query num fetch = .error "Empty query" := by
  simp [invoke_duckduckgo_news_search, hq]

/-- Claim C5, witness: a whitespace-only query. -/
theorem C5_witness :
    invoke_duckduckgo_news_search "   " 5 .exn = .error "Empty query" :=
  C5_empty_query "   " 5 .exn (by decide)

/-- Claim C6 (confirmed).  For every non-empty (after trimming) query text,
the search returns either a `Success` carrying between 1 and `resultLimit`
records or one of the defined failure outcomes; the embedding is a total
function, so no exception propagates, and zero usable records yield the
no-results failure. -/
theorem C6_total_outcomes (query : String) (num : Nat) (fetch : FetchResult)
    (hq : pyStrip query ≠ "") :
    (∃ recs, invoke_duckduckgo_news_search query num fetch = .success recs ∧
      1 ≤ recs.length ∧ recs.length ≤ num) ∨
    invoke_duckduckgo_news_search query num fetch =
      .error "Failed to fetch news results" ∨
    invoke_duckduckgo_news_search query num fetch =
      .error "No search results available." := by
  cases fetch with
  | exn => right; right; simp [invoke_duckduckgo_news_search, hq]
  | response sc blocks =>
    by_cases hs : sc = 200
    · subst hs
      by_cases hres : parseResults blocks num = []
      · right; right; simp [invoke_duckduckgo_news_search, hq, hres]
      · left
        refine ⟨parseResults blocks num, ?_, ?_, parseResults_length_le _ _⟩
        · simp [invoke_duckduckgo_news_search, hq, hres]
        · exact Nat.one_le_iff_ne_zero.mpr
            (fun hz => hres (List.length_eq_zero.mp hz))
    · right; left; simp [invoke_duckduckgo_news_search, hq, hs]

/-- Claim C6, witness: a raised exception at a concrete non-empty query lands
in one of the allowed outcomes. -/
theorem C6_witness :
    (∃ recs, invoke_duckduckgo_news_search "q" 5 .exn = .success recs ∧
      1 ≤ recs.length ∧ recs.length ≤ 5) ∨
    invoke_duckduckgo_news_search "q" 5 .exn =
      .error "Failed to fetch news results" ∨
    invoke_duckduckgo_news_search "q" 5 .exn =
      .error "No search results available." :=
  C6_total_outcomes "q" 5 .exn (by decide)

/-- Claim C7, counterexample.  The claim says a record's summary is never the
empty string.  A block whose snippet anchor is present but whose stripped
text is empty (for example `<a class="result__snippet"></a>`) produces a
record whose summary is exactly `""`. -/
theorem C7_counterexample :
    invoke_duckduckgo_news_search "q" 5
      (.response 200 [⟨some ⟨"T", some "L"⟩, some ""⟩]) =
      .success [⟨1, "T", "L", ""⟩] ∧
    (SearchRecord.mk 1 "T" "L" "").summary = "" := by
  decide

/-- Claim C7, amended.  For every record produced by a successful search:
when the snippet anchor is absent the summary is exactly the literal
"No summary available.", and when it is present the summary is the anchor's
extracted text verbatim — which may be the empty string. -/
theorem C7_summary_characterization (query : String) (num : Nat)
    (blocks : List ResultBlock) (recs : List SearchRecord) (r : SearchRecord)
    (h : invoke_duckduckgo_news_search query num (.response 200 blocks) =
      .success recs)
    (hr : r ∈ recs) :
    ∃ b ∈ blocks.take num,
      (b.snippetText = none ∧ r.summary = "No summary available.") ∨
        b.snippetText = some r.summary := by
  rcases invoke_success_inv query num _ recs h with ⟨blocks2, hfetch, hrecs, -⟩
  injection hfetch with hsc hb
  subst hb
  subst hrecs
  rcases parseLoop_index (blocks.take num) 0 r hr with ⟨j, b, hget, hnum, hext⟩
  refine ⟨b, List.get?_mem hget, ?_⟩
  cases hbt : b.titleTag with
  | none => simp [extractRecord, hbt] at hext
  | some t =>
    cases hsn : b.snippetText with
    | none =>
      left
      refine ⟨rfl, ?_⟩
      simp [extractRecord, hbt, hsn] at hext
      rw [← hext]
    | some s =>
      right
      simp [extractRecord, hbt, hsn] at hext
      rw [← hext]

/-- Claim C7, witness for the amended theorem: an absent snippet yields the
placeholder. -/
theorem C7_witness :
    ∃ b ∈ ([⟨some ⟨"T", some "L"⟩, none⟩] : List ResultBlock).take 5,
      (b.snippetText = none ∧
        (SearchRecord.mk 1 "T" "L" "No summary available.").summary =
          "No summary available.") ∨
        b.snippetText =
          some (SearchRecord.mk 1 "T" "L" "No summary available.").summary :=
  C7_summary_characterization "q" 5 [⟨some ⟨"T", some "L"⟩, none⟩]
    [⟨1, "T", "L", "No summary available."⟩]
    ⟨1, "T", "L", "No summary available."⟩ (by decide) (by decide)

/-- Claim C8 (confirmed).  For every failure outcome of any kind (the
no-results failure included) the rendering adapter produces the empty display
string; non-empty display markup arises exactly from a success outcome with a
non-empty record list. -/
theorem C8_render_boundary (payload : SearchOutcome) :
    (∀ msg, payload = .error msg → format_news_results_html payload = "") ∧
    (format_news_results_html payload ≠ "" ↔
      ∃ items, payload = .success items ∧ items ≠ []) := by
  constructor
  · intro msg hmsg
    subst hmsg
    rfl
  · constructor
    · intro hne
      cases payload with
      | error m => exact absurd rfl hne
      | success items =>
        refine ⟨items, rfl, ?_⟩
        intro hitems
        exact hne (by simp [format_news_results_html, hitems])
    · rintro ⟨items, hp, hitems⟩
      subst hp
      exact format_success_ne_empty items hitems

/-- Claim C8, witness: the no-results failure renders to the empty string,
and a one-record success renders to non-empty markup. -/
theorem C8_witness :
    format_news_results_html (.error "No search results available.") = "" ∧
    format_news_results_html (.success [⟨1, "T", "L", "S"⟩]) ≠ "" :=
  ⟨(C8_render_boundary (.error "No search results available.")).1 _ rfl,
   (C8_render_boundary (.success [⟨1, "T", "L", "S"⟩])).2.mpr
     ⟨[⟨1, "T", "L", "S"⟩], rfl, by decide⟩⟩

/-- Claim C9 (confirmed).  For every query whose text trims to the empty
string, `get_search_results_realtime` returns the literal empty list — a
constructor distinct from every tagged outcome value — leaves the cache
exactly as it was, and performs zero fetcher invocations; the result does not
depend on the cache or the fetcher, so the cache is not even read. -/
theorem C9_empty_query_bypasses_cache (cache : Cache) (ttl now : Int)
    (fetcher : String → SearchOutcome) (query : String)
    (hq : pyStrip query = "") :
    get_search_results_realtime cache ttl now fetcher query =
      (.emptyList, cache, 0) ∧
    ∀ o : SearchOutcome,
      (RealtimeResult.emptyList : RealtimeResult) ≠ .outcome o := by
  constructor
  · simp [get_search_results_realtime, hq]
  · intro o h
    cases h

/-- Claim C9, witness: a whitespace-only query against a concrete cache. -/
theorem C9_witness :
    get_search_results_realtime (fun _ => none) 60 0
      (fun _ => .error "E") " \t " = (.emptyList, (fun _ => none : Cache), 0) ∧
    ∀ o : SearchOutcome,
      (RealtimeResult.emptyList : RealtimeResult) ≠ .outcome o :=
  C9_empty_query_bypasses_cache (fun _ => none) 60 0
    (fun _ => .error "E") " \t " (by decide)

/-- Claim C10 (confirmed).  `ChatBot.generate_response` is atomic with
respect to the conversation history: when the completion call (or the access
to its first choice) raises, the fixed error sentence is returned and the
history is exactly what it was; when it succeeds, exactly two entries are
appended — the user message followed by the assistant message carrying the
stripped reply text. -/
theorem C10_generate_response_atomic (history : List Message)
    (user_input context : String) (completion : Completion) :
    (completion (build_messages history user_input context) = .error () →
      generate_response history user_input context completion =
        ("I encountered an error while generating a response. Please try again.",
         history)) ∧
    (∀ content,
      completion (build_messages history user_input context) = .ok content →
      (generate_response history user_input context completion).2 =
        history ++
          [{ role := "user", content := user_input },
           { role := "assistant", content := pyStrip (content.getD "") }]) := by
  constructor
  · intro h
    simp [generate_response, h]
  · intro c h
    simp [generate_response, h]

/-- Claim C10, witness: a raising completion leaves the initial history
untouched and returns the fixed error sentence. -/
theorem C10_witness :
    generate_response initialHistory "hi" "" (fun _ => .error ()) =
      ("I encountered an error while generating a response. Please try again.",
       initialHistory) :=
  (C10_generate_response_atomic initialHistory "hi" ""
    (fun _ => .error ())).1 rfl

end SearchBot
